import Mathlib

/-!
Verification development for the schema-driven record editor of the
table-read-databricks-app repository.  The Python views
`views/table_form_editor.py` and `views/dq_mdar_masterfile_editor.py`
are shallowly embedded: record values become an explicit `Val` type
(Python `None`, `str`, and other objects with their printed form and
truthiness), dictionaries become ordered association lists, the SQL
builders become pure string functions, and the Streamlit mutation
handlers become explicit state-transition functions over the session
state, parameterised by a fallible SQL execution oracle.
-/

namespace TableEditor

/-- A Python value as it flows through the editor's record dictionaries:
`vnone` is Python `None`; `vstr s` a `str`; `vother repr truthy` any other
object, carrying its `str(...)` rendering and its truthiness
(`bool(...)`), which is all the editor code ever inspects on it. -/
inductive Val where
  | vnone : Val
  | vstr (s : String) : Val
  | vother (rep : String) (truthy : Bool) : Val
deriving DecidableEq

/-- The characters Python's `str.strip()` removes (ASCII whitespace). -/
def isPyWs (c : Char) : Bool :=
  c = ' ' || c = '\t' || c = '\n' || c = '\r' || c = '\x0b' || c = '\x0c'

/-- Remove leading and trailing whitespace from a character list. -/
def dropBoth (l : List Char) : List Char :=
  ((l.dropWhile isPyWs).reverse.dropWhile isPyWs).reverse

/-- Python `s.strip()`. -/
def pyStrip (s : String) : String :=
  String.mk (dropBoth s.data)

/-- Python `s.upper()` (ASCII case mapping, as used on ticket values). -/
def pyUpper (s : String) : String :=
  String.mk (s.data.map Char.toUpper)

/-- Python `s.lower()` (ASCII case mapping, as used on type strings). -/
def pyLower (s : String) : String :=
  String.mk (s.data.map Char.toLower)

/-- Python `val.replace("'", "''")` on the character list: every single
quote is doubled, all other characters are kept. -/
def escQuotes : List Char → List Char
  | [] => []
  | c :: rest => if c = '\'' then '\'' :: '\'' :: escQuotes rest else c :: escQuotes rest

/-- Python `val.replace("'", "''")`, the editor's only SQL escaping. -/
def pyEscape (s : String) : String :=
  String.mk (escQuotes s.data)

/-- Python `str(val)` for the values the editor handles. -/
def pyStr (v : Val) : String :=
  match v with
  | Val.vnone => "None"
  | Val.vstr s => s
  | Val.vother r _ => r

/-- Python truthiness `bool(val)` for the values the editor handles. -/
def pyTruthy (v : Val) : Bool :=
  match v with
  | Val.vnone => false
  | Val.vstr s => !(s = "")
  | Val.vother _ b => b

/-- Membership of a string in a list of strings (Python `x in xs`). -/
def elemStr (s : String) : List String → Bool
  | [] => false
  | c :: rest => if s = c then true else elemStr s rest

/-- First-match lookup in an ordered association list (a Python dict read). -/
def lookupVal : List (String × Val) → String → Option Val
  | [], _ => none
  | (k, v) :: rest, key => if key = k then some v else lookupVal rest key

/-- Python `record.get(key, default)`. -/
def pyGetD (r : List (String × Val)) (k : String) (d : Val) : Val :=
  (lookupVal r k).getD d

/-- Python `record[key] = v`: replace the value stored under `key`. -/
def setKey (r : List (String × Val)) (key : String) (v : Val) : List (String × Val) :=
  r.map (fun kv => if kv.1 = key then (kv.1, v) else kv)

/-- Whether `needle` occurs at the start of `hay`. -/
def seqAt : List Char → List Char → Bool
  | [], _ => true
  | _ :: _, [] => false
  | a :: as, b :: bs => a = b && seqAt as bs

/-- Whether `needle` occurs anywhere inside `hay`. -/
def containsSeq (needle : List Char) : List Char → Bool
  | [] => seqAt needle []
  | c :: rest => seqAt needle (c :: rest) || containsSeq needle rest

/-- Python `needle in hay` on strings. -/
def strContains (hay needle : String) : Bool :=
  containsSeq needle.data hay.data

/-- Full match of the regex `MDAR-\d+` (ASCII digits): the literal prefix
`MDAR-` followed by one or more digits and nothing else.  This is
`re.match(r'^MDAR-\d+$', s)` from `dq_mdar_masterfile_editor.py`. -/
def ticketMatch (s : String) : Bool :=
  match s.data with
  | 'M' :: 'D' :: 'A' :: 'R' :: '-' :: ds => !ds.isEmpty && ds.all Char.isDigit
  | _ => false

/-- `validate_ticket_format` (dq_mdar_masterfile_editor.py lines 238-243):
reject a falsy (empty) value, strip, then full-match `^MDAR-\d+$`. -/
def validate_ticket_format (ticket : String) : Bool :=
  if ticket = "" then false else ticketMatch (pyStrip ticket)

/-- The closed set of form-field kinds the type dispatch selects from. -/
inductive FieldKind where
  | integer
  | float
  | boolean
  | date
  | timestamp
  | text
deriving DecidableEq

/-- The type dispatch of `render_form_field` (table_form_editor.py lines
107-157 and dq_mdar_masterfile_editor.py lines 430-490): case-insensitive
substring checks on the declared column type, in source order, with a
final fallthrough to text. -/
def classify (columnType : String) : FieldKind :=
  let t := pyLower columnType
  if strContains t "int" || strContains t "bigint" then FieldKind.integer
  else if strContains t "float" || strContains t "double" || strContains t "decimal" then FieldKind.float
  else if strContains t "boolean" then FieldKind.boolean
  else if strContains t "date" && !(strContains t "timestamp") then FieldKind.date
  else if strContains t "timestamp" then FieldKind.timestamp
  else FieldKind.text

/-- Value rendering shared by `insert_record` and `update_record` in both
editors: `NULL` for `None` or the empty string, a single-quoted literal
with quotes doubled for a `str`, and the plain `str(val)` otherwise. -/
def renderVal (v : Val) : String :=
  match v with
  | Val.vnone => "NULL"
  | Val.vstr s => if s = "" then "NULL" else "'" ++ pyEscape s ++ "'"
  | Val.vother r _ => r

/-- `insert_record`'s SQL construction (table_form_editor.py lines 50-69):
columns and rendered values of the record in order. -/
def insert_record_sql (table : String) (record : List (String × Val)) : String :=
  let columns := record.map Prod.fst
  let values := record.map (fun kv => renderVal kv.2)
  "INSERT INTO " ++ table ++ " (" ++ String.intercalate ", " columns ++ ") VALUES ("
    ++ String.intercalate ", " values ++ ")"

/-- `update_record`'s SQL construction (table_form_editor.py lines 71-88):
a SET clause with the same value rendering, then the caller's WHERE. -/
def update_record_sql (table : String) (record : List (String × Val)) (whereClause : String) : String :=
  let setClauses := record.map (fun kv => kv.1 ++ " = " ++ renderVal kv.2)
  "UPDATE " ++ table ++ " SET " ++ String.intercalate ", " setClauses ++ " WHERE " ++ whereClause

/-- `delete_record`'s SQL construction (table_form_editor.py lines 90-94). -/
def delete_record_sql (table : String) (whereClause : String) : String :=
  "DELETE FROM " ++ table ++ " WHERE " ++ whereClause

/-- The "no selection" sentinel cleanup applied to one value
(`if value == "-- Select --": record_data[key] = ""`). -/
def desentVal (v : Val) : Val :=
  if v = Val.vstr "-- Select --" then Val.vstr "" else v

/-- The `ValueError` message raised for a malformed ticket. -/
def ticketErr (s : String) : String :=
  "Invalid ticket format: '" ++ s ++ "'. Must follow pattern MDAR-#### (e.g., MDAR-1234)"

/-- The masterfile `insert_record` (dq_mdar_masterfile_editor.py lines
303-333): replace each "-- Select --" value by the empty string, then, if
the record has a `ticket` key, strip it in place and raise `ValueError`
unless it matches the ticket format (a non-`str` ticket raises
`AttributeError` at `.strip()`); finally build the INSERT statement.
`Except.error` models a raised exception (no SQL is produced). -/
def insert_record_m (table : String) (record : List (String × Val)) : Except String String :=
  let record1 := record.map (fun kv => (kv.1, desentVal kv.2))
  match lookupVal record1 "ticket" with
  | none => Except.ok (insert_record_sql table record1)
  | some (Val.vstr s) =>
    let s' := pyStrip s
    if validate_ticket_format s' then
      Except.ok (insert_record_sql table (setKey record1 "ticket" (Val.vstr s')))
    else Except.error (ticketErr s')
  | some _ => Except.error "AttributeError: value has no attribute strip"

/-- The masterfile `update_record` (dq_mdar_masterfile_editor.py lines
335-358): same ticket guard as `insert_record` (but no sentinel cleanup),
then build the UPDATE statement with the caller's WHERE clause. -/
def update_record_m (table : String) (record : List (String × Val)) (whereClause : String) :
    Except String String :=
  match lookupVal record "ticket" with
  | none => Except.ok (update_record_sql table record whereClause)
  | some (Val.vstr s) =>
    let s' := pyStrip s
    if validate_ticket_format s' then
      Except.ok (update_record_sql table (setKey record "ticket" (Val.vstr s')) whereClause)
    else Except.error (ticketErr s')
  | some _ => Except.error "AttributeError: value has no attribute strip"

/-- Whether a ticket value makes the masterfile mutation guard raise: a
string whose trimmed form fails the format check, or a non-string (on
which `.strip()` raises). -/
def ticketValFails (v : Val) : Bool :=
  match v with
  | Val.vstr s => !(validate_ticket_format (pyStrip s))
  | _ => true

/-- The record normalization `insert_record` performs before SQL
generation: sentinel values replaced by the empty string, then the ticket
value stripped in place. -/
def stripTicketKey (r : List (String × Val)) : List (String × Val) :=
  match lookupVal r "ticket" with
  | some (Val.vstr s) => setKey r "ticket" (Val.vstr (pyStrip s))
  | _ => r

/-- Sentinel cleanup over the whole record followed by ticket stripping,
exactly the mutation `insert_record` applies to `record_data` before
building the INSERT statement. -/
def pyNormalizeRecord (r : List (String × Val)) : List (String × Val) :=
  stripTicketKey (r.map (fun kv => (kv.1, desentVal kv.2)))

/-- The WHERE-value rendering of the update/delete handlers: a string is
quote-escaped and single-quoted, anything else is interpolated as
`str(val)` (table_form_editor.py lines 372-379 and 449-456,
dq_mdar_masterfile_editor.py lines 592-599 and 689-696). -/
def renderWhereVal (v : Val) : String :=
  match v with
  | Val.vstr s => "'" ++ pyEscape s ++ "'"
  | v => pyStr v

/-- The WHERE-clause construction of every update and delete handler:
`first_col = list(schema.keys())[0]; first_val = selected_record[first_col]`,
then `first_col = <rendered value>`.  `none` models the `IndexError` on an
empty schema or the `KeyError` on a missing column. -/
def buildWhereClause (schema : List (String × String)) (sel : List (String × Val)) :
    Option String :=
  match schema with
  | [] => none
  | (firstCol, _) :: _ =>
    match lookupVal sel firstCol with
    | none => none
    | some v => some (firstCol ++ " = " ++ renderWhereVal v)

/-- The cached table snapshot (`st.session_state.table_data`): column
names plus rows, each row a mapping from column name to value. -/
structure Snapshot where
  cols : List String
  rows : List (List (String × Val))
deriving DecidableEq

/-- `check_ticket_exists` (dq_mdar_masterfile_editor.py lines 245-257):
`False` when the snapshot is `None`, empty, or lacks a `ticket` column;
otherwise case-insensitive membership of the stripped candidate among the
stripped, uppercased string renderings of the existing ticket values. -/
def check_ticket_exists (ticket : String) (tableData : Option Snapshot) : Bool :=
  match tableData with
  | none => false
  | some t =>
    if t.rows.length = 0 then false
    else if !(elemStr "ticket" t.cols) then false
    else
      elemStr (pyUpper (pyStrip ticket))
        (t.rows.map (fun row => pyUpper (pyStrip (pyStr (pyGetD row "ticket" Val.vnone)))))

/-- The optional fields of `validate_new_record`. -/
def optional_fields : List String :=
  ["root_cause", "timeline_year", "timeline_month", "timeline_quarter"]

/-- Whether one record entry fails the mandatory-field check of
`validate_new_record`: the field is not optional and its value is `None`,
or a string that is blank after stripping or equal to the sentinel. -/
def mandatoryFails (field : String) (v : Val) : Bool :=
  !(elemStr field optional_fields) &&
    (match v with
     | Val.vnone => true
     | Val.vstr s => pyStrip s = "" || s = "-- Select --"
     | Val.vother _ _ => false)

/-- The first failing mandatory field of a record, in record order: the
loop of `validate_new_record` (dq_mdar_masterfile_editor.py lines
267-273), which returns at the first failure. -/
def firstMandatoryFail : List (String × Val) → Option String
  | [] => none
  | (f, v) :: rest => if mandatoryFails f v then some f else firstMandatoryFail rest

/-- The field-specific mandatory-failure message. -/
def mandatoryMsg (f : String) : String :=
  "Field '" ++ f ++ "' is mandatory and cannot be empty."

/-- The combined timeline-rule failure message. -/
def timelineMsg : String :=
  "If 'timeline_year' is provided, either 'timeline_month' or 'timeline_quarter' must be filled."

/-- Python `if value and isinstance(value, str) and value.strip():` on a
timeline value. -/
def timelineFilled (v : Val) : Bool :=
  pyTruthy v &&
    (match v with
     | Val.vstr s => !(pyStrip s = "")
     | _ => false)

/-- Python `not value or (isinstance(value, str) and not value.strip())`
on a timeline value. -/
def timelineEmpty (v : Val) : Bool :=
  !pyTruthy v ||
    (match v with
     | Val.vstr s => pyStrip s = ""
     | _ => false)

/-- `validate_new_record` (dq_mdar_masterfile_editor.py lines 259-294):
the mandatory-field loop short-circuits at the first failure; the
surviving records are then checked against the conditional timeline rule
after mapping the sentinel to the empty string. -/
def validate_new_record (r : List (String × Val)) : Bool × String :=
  match firstMandatoryFail r with
  | some f => (false, mandatoryMsg f)
  | none =>
    let ty := desentVal (pyGetD r "timeline_year" (Val.vstr ""))
    let tm := desentVal (pyGetD r "timeline_month" (Val.vstr ""))
    let tq := desentVal (pyGetD r "timeline_quarter" (Val.vstr ""))
    if timelineFilled ty && timelineEmpty tm && timelineEmpty tq then
      (false, timelineMsg)
    else (true, "")

/-- The per-session editor state the mutation handlers touch:
`st.session_state.table_data` and `st.session_state.table_schema`. -/
structure SessionState where
  table_data : Option Snapshot
  table_schema : Option (List (String × String))
deriving DecidableEq

/-- What one mutation handler run reports: success carries the executed
SQL statement (for observability of the model); `duplicate` and `invalid`
are the pre-SQL rejections of the add handler; `failure` is any caught
exception (including an uncaught `AttributeError` on a non-string ticket,
after which Streamlit likewise preserves the session state). -/
inductive Outcome where
  | success (sql : String)
  | duplicate
  | invalid (msg : String)
  | failure (msg : String)
deriving DecidableEq

/-- The masterfile add-record handler (dq_mdar_masterfile_editor.py lines
635-654): duplicate check on the stripped ticket, then
`validate_new_record`, then `insert_record` and execution; only a
successful execution clears `table_data`.  `exec` is the SQL backend. -/
def addRecordStep (state : SessionState) (table : String) (form : List (String × Val))
    (exec : String → Except String Unit) : SessionState × Outcome :=
  match pyGetD form "ticket" (Val.vstr "") with
  | Val.vstr s =>
    let ticketValue := pyStrip s
    if check_ticket_exists ticketValue state.table_data then
      (state, Outcome.duplicate)
    else
      match validate_new_record form with
      | (false, msg) => (state, Outcome.invalid msg)
      | (true, _) =>
        match insert_record_m table form with
        | Except.error e => (state, Outcome.failure e)
        | Except.ok sql =>
          match exec sql with
          | Except.error e => (state, Outcome.failure e)
          | Except.ok _ => ({ state with table_data := none }, Outcome.success sql)
  | _ => (state, Outcome.failure "AttributeError: value has no attribute strip")

/-- The edit-record save handler (dq_mdar_masterfile_editor.py lines
589-606, table_form_editor.py lines 370-386): WHERE clause from the first
schema column, `update_record`, execution; only success clears
`table_data`. -/
def updateRecordStep (state : SessionState) (table : String) (form : List (String × Val))
    (sel : List (String × Val)) (exec : String → Except String Unit) :
    SessionState × Outcome :=
  match state.table_schema with
  | none => (state, Outcome.failure "AttributeError: keys of None")
  | some schema =>
    match buildWhereClause schema sel with
    | none => (state, Outcome.failure "IndexError or KeyError building WHERE clause")
    | some w =>
      match update_record_m table form w with
      | Except.error e => (state, Outcome.failure e)
      | Except.ok sql =>
        match exec sql with
        | Except.error e => (state, Outcome.failure e)
        | Except.ok _ => ({ state with table_data := none }, Outcome.success sql)

/-- The delete-record handler (dq_mdar_masterfile_editor.py lines 686-703,
table_form_editor.py lines 447-463): WHERE clause from the first schema
column, `delete_record`, execution; only success clears `table_data`. -/
def deleteRecordStep (state : SessionState) (table : String)
    (sel : List (String × Val)) (exec : String → Except String Unit) :
    SessionState × Outcome :=
  match state.table_schema with
  | none => (state, Outcome.failure "AttributeError: keys of None")
  | some schema =>
    match buildWhereClause schema sel with
    | none => (state, Outcome.failure "IndexError or KeyError building WHERE clause")
    | some w =>
      match exec (delete_record_sql table w) with
      | Except.error e => (state, Outcome.failure e)
      | Except.ok _ => ({ state with table_data := none }, Outcome.success (delete_record_sql table w))

/-- Example snapshot holding one row with ticket `MDAR-100`, used as the
concrete duplicate-check scenario. -/
def snapEx : Snapshot :=
  { cols := ["ticket"], rows := [[("ticket", Val.vstr "MDAR-100")]] }

/-- Example session state carrying `snapEx`. -/
def stateEx : SessionState :=
  { table_data := some snapEx, table_schema := none }

/-! Helper lemmas shared by the claim theorems. -/

theorem elemStr_iff (a : String) (l : List String) : elemStr a l = true ↔ a ∈ l := by
  induction l with
  | nil => simp [elemStr]
  | cons c rest ih =>
    by_cases h : a = c
    · simp [elemStr, h]
    · simp [elemStr, h, ih]

theorem lookupVal_map (f : Val → Val) (r : List (String × Val)) (k : String) :
    lookupVal (r.map (fun kv => (kv.1, f kv.2))) k = (lookupVal r k).map f := by
  induction r with
  | nil => rfl
  | cons kv rest ih =>
    obtain ⟨k0, v0⟩ := kv
    by_cases h : k = k0
    · simp [lookupVal, h]
    · simp [lookupVal, h, ih]

theorem dropWhile_idem {α : Type _} (p : α → Bool) (l : List α) :
    (l.dropWhile p).dropWhile p = l.dropWhile p := by
  induction l with
  | nil => rfl
  | cons a t ih =>
    by_cases h : p a
    · rw [List.dropWhile_cons_of_pos h]; exact ih
    · rw [List.dropWhile_cons_of_neg h, List.dropWhile_cons_of_neg h]

theorem getLast?_dropWhile_ne_nil {α : Type _} (p : α → Bool) (l : List α)
    (h : l.dropWhile p ≠ []) : (l.dropWhile p).getLast? = l.getLast? := by
  induction l with
  | nil => simp [List.dropWhile] at h
  | cons a t ih =>
    by_cases hp : p a
    · rw [List.dropWhile_cons_of_pos hp] at h ⊢
      have ht : t ≠ [] := by
        intro he
        rw [he] at h
        simp [List.dropWhile] at h
      obtain ⟨b, t', rfl⟩ := List.exists_cons_of_ne_nil ht
      rw [ih h, List.getLast?_cons_cons]
    · rw [List.dropWhile_cons_of_neg hp]

theorem dropWhile_head_neg {α : Type _} (p : α → Bool) (l : List α)
    (h : ∀ x, l.head? = some x → p x = false) : l.dropWhile p = l := by
  cases l with
  | nil => rfl
  | cons a t =>
    have ha := h a rfl
    rw [List.dropWhile_cons_of_neg (by simp [ha])]

theorem stripNoLeadWs (l : List Char) : (dropBoth l).dropWhile isPyWs = dropBoth l := by
  unfold dropBoth
  apply dropWhile_head_neg
  intro y hy
  rw [List.head?_reverse] at hy
  have hne : (l.dropWhile isPyWs).reverse.dropWhile isPyWs ≠ [] := by
    intro he
    rw [he] at hy
    simp at hy
  have h2 := getLast?_dropWhile_ne_nil isPyWs (l.dropWhile isPyWs).reverse hne
  rw [h2, List.getLast?_reverse] at hy
  have h3 := List.head?_dropWhile_not isPyWs l
  simp only [hy] at h3
  exact h3

theorem dropBoth_idem (l : List Char) : dropBoth (dropBoth l) = dropBoth l := by
  have hX : (dropBoth l).reverse = (l.dropWhile isPyWs).reverse.dropWhile isPyWs := by
    unfold dropBoth
    rw [List.reverse_reverse]
  show (((dropBoth l).dropWhile isPyWs).reverse.dropWhile isPyWs).reverse = dropBoth l
  rw [stripNoLeadWs l, hX, dropWhile_idem]
  unfold dropBoth
  rfl

theorem pyStrip_idem (s : String) : pyStrip (pyStrip s) = pyStrip s :=
  congrArg String.mk (dropBoth_idem s.data)

theorem escQuotes_flatMap (l : List Char) :
    escQuotes l = l.flatMap (fun c => if c = '\'' then [c, c] else [c]) := by
  induction l with
  | nil => rfl
  | cons c t ih =>
    by_cases h : c = '\''
    · simp [escQuotes, h, ih]
    · simp [escQuotes, h, ih]

theorem firstMandatoryFail_append (r1 : List (String × Val)) (f1 : String) (v1 : Val)
    (rest : List (String × Val)) (h1 : mandatoryFails f1 v1 = true)
    (hr : ∀ p ∈ r1, mandatoryFails p.1 p.2 = false) :
    firstMandatoryFail (r1 ++ (f1, v1) :: rest) = some f1 := by
  induction r1 with
  | nil => simp [firstMandatoryFail, h1]
  | cons p t ih =>
    obtain ⟨f, v⟩ := p
    have hp := hr (f, v) (by simp)
    simp only [List.cons_append, firstMandatoryFail]
    rw [if_neg (by simp [hp])]
    exact ih (fun q hq => hr q (List.mem_cons_of_mem _ hq))

/-! Claim theorems. -/

/-- C1: `build_insert` renders every column value of the record, in order,
as the literal token `NULL` when it is `None` or the empty string, as a
single-quoted literal with every quote doubled when it is a string
(`O'Brien` becomes `'O''Brien'`), and as its plain string representation
otherwise, concatenated into `INSERT INTO <table> (<cols>) VALUES (<vals>)`. -/
theorem insert_sql_value_rendering :
    (∀ table record, insert_record_sql table record =
      "INSERT INTO " ++ table ++ " (" ++ String.intercalate ", " (record.map Prod.fst)
        ++ ") VALUES (" ++ String.intercalate ", " (record.map (fun kv => renderVal kv.2)) ++ ")")
    ∧ renderVal Val.vnone = "NULL"
    ∧ renderVal (Val.vstr "") = "NULL"
    ∧ (∀ s, s ≠ "" → renderVal (Val.vstr s) = "'" ++ pyEscape s ++ "'")
    ∧ (∀ r b, renderVal (Val.vother r b) = r)
    ∧ (∀ l : List Char, escQuotes l = l.flatMap (fun c => if c = '\'' then [c, c] else [c]))
    ∧ pyEscape "O'Brien" = "O''Brien"
    ∧ insert_record_sql "t" [("name", Val.vstr "O'Brien"), ("qty", Val.vother "3" true),
        ("note", Val.vnone), ("blank", Val.vstr "")]
      = "INSERT INTO t (name, qty, note, blank) VALUES ('O''Brien', 3, NULL, NULL)" := by
  refine ⟨fun table record => rfl, rfl, rfl, ?_, fun r b => rfl, escQuotes_flatMap, by decide, by decide⟩
  intro s hs
  simp [renderVal, hs]

/-- C2 counterexample: the claim says the input with a leading space
`" MDAR-1234"` fails the ticket format check, but `validate_ticket_format`
strips the value before matching, so it passes. -/
theorem ticket_format_leading_space_passes :
    validate_ticket_format " MDAR-1234" = true := by decide

/-- C2 (amended): `"MDAR-1234"` passes the ticket format check while
`"MDAR-12A4"` and `"MDAR1234"` fail; `" MDAR-1234"` also passes, because
the check requires a full match of `^MDAR-\d+$` applied to the value after
trimming, and trimming removes the leading space. -/
theorem ticket_format_full_match :
    validate_ticket_format "MDAR-1234" = true
    ∧ validate_ticket_format "MDAR-12A4" = false
    ∧ validate_ticket_format "MDAR1234" = false
    ∧ validate_ticket_format " MDAR-1234" = true
    ∧ (∀ s, validate_ticket_format s = ticketMatch (pyStrip s)) := by
  refine ⟨by decide, by decide, by decide, by decide, ?_⟩
  intro s
  unfold validate_ticket_format
  by_cases h : s = ""
  · subst h
    decide
  · rw [if_neg h]

/-- C3: the type dispatch of `render_form_field` is total and
deterministic — every type string selects exactly one `FieldKind` — with
`DECIMAL(10,2)` classified as float, `BIGINT` as integer, `TIMESTAMP` as
timestamp (a type containing "timestamp" is excluded from the date
branch), and `VARCHAR(50)` falling through to text; matching is
case-insensitive. -/
theorem classify_total_dispatch :
    (∀ t : String, ∃! k : FieldKind, classify t = k)
    ∧ classify "DECIMAL(10,2)" = FieldKind.float
    ∧ classify "BIGINT" = FieldKind.integer
    ∧ classify "TIMESTAMP" = FieldKind.timestamp
    ∧ classify "VARCHAR(50)" = FieldKind.text
    ∧ classify "decimal(10,2)" = FieldKind.float
    ∧ classify "bigint" = FieldKind.integer
    ∧ classify "date" = FieldKind.date
    ∧ classify "date_timestamp" = FieldKind.timestamp := by
  refine ⟨fun t => ⟨classify t, rfl, fun y hy => hy.symm⟩,
    by decide, by decide, by decide, by decide, by decide, by decide, by decide, by decide⟩

/-- C5: `validate_new_record` short-circuits on the first failing
mandatory field: when two mandatory fields fail (are `None`, blank after
trimming, or the sentinel), the result is invalid with only the first
failing field's message, never an accumulation. -/
theorem validate_first_failure_only :
    (∀ r1 f1 v1 r2 f2 v2 r3,
      mandatoryFails f1 v1 = true →
      mandatoryFails f2 v2 = true →
      (∀ p ∈ r1, mandatoryFails p.1 p.2 = false) →
      validate_new_record (r1 ++ (f1, v1) :: r2 ++ (f2, v2) :: r3) = (false, mandatoryMsg f1))
    ∧ validate_new_record [("ticket", Val.vstr ""), ("data_owner", Val.vnone)]
        = (false, mandatoryMsg "ticket")
    ∧ mandatoryMsg "ticket" = "Field 'ticket' is mandatory and cannot be empty." := by
  refine ⟨?_, by decide, rfl⟩
  intro r1 f1 v1 r2 f2 v2 r3 h1 h2 hr
  have hf := firstMandatoryFail_append r1 f1 v1 (r2 ++ (f2, v2) :: r3) h1 hr
  simp [validate_new_record, hf]

/-- C6: for a record passing the mandatory checks, a non-empty
`timeline_year` (after mapping the sentinel to empty) with empty
`timeline_month` and `timeline_quarter` fails with the single combined
message, and the same situation with `timeline_quarter = "Q1"` passes. -/
theorem timeline_conditional_rule :
    (∀ r y,
      firstMandatoryFail r = none →
      pyGetD r "timeline_year" (Val.vstr "") = Val.vstr y →
      y ≠ "-- Select --" →
      pyStrip y ≠ "" →
      timelineEmpty (desentVal (pyGetD r "timeline_month" (Val.vstr ""))) = true →
      timelineEmpty (desentVal (pyGetD r "timeline_quarter" (Val.vstr ""))) = true →
      validate_new_record r = (false, timelineMsg))
    ∧ (∀ r,
      firstMandatoryFail r = none →
      pyGetD r "timeline_quarter" (Val.vstr "") = Val.vstr "Q1" →
      validate_new_record r = (true, ""))
    ∧ validate_new_record [("ticket", Val.vstr "MDAR-1"), ("timeline_year", Val.vstr "2026"),
        ("timeline_month", Val.vstr ""), ("timeline_quarter", Val.vstr "")] = (false, timelineMsg)
    ∧ validate_new_record [("ticket", Val.vstr "MDAR-1"), ("timeline_year", Val.vstr "2026"),
        ("timeline_month", Val.vstr ""), ("timeline_quarter", Val.vstr "Q1")] = (true, "") := by
  refine ⟨?_, ?_, by decide, by decide⟩
  · intro r y h0 hy hsent hstrip hm hq
    have hy0 : y ≠ "" := by
      intro he
      apply hstrip
      rw [he]
      rfl
    have hd : desentVal (Val.vstr y) = Val.vstr y := by
      simp [desentVal, hsent]
    have hf : timelineFilled (Val.vstr y) = true := by
      simp [timelineFilled, pyTruthy, hy0, hstrip]
    simp only [validate_new_record, h0, hy, hd]
    simp [hf, hm, hq]
  · intro r h0 hq
    have hd : desentVal (Val.vstr "Q1") = Val.vstr "Q1" := by decide
    have he : timelineEmpty (Val.vstr "Q1") = false := by decide
    simp only [validate_new_record, h0, hq, hd]
    simp [he]

/-- C8: the WHERE predicate of every update and delete is built from the
first column of the schema in its declared order, with the selected row's
value for that column quote-escaped and quoted when textual and
interpolated unquoted otherwise; swapping the first two schema columns
changes which column is used. -/
theorem where_clause_first_schema_column :
    (∀ c ty rest sel s, lookupVal sel c = some (Val.vstr s) →
      buildWhereClause ((c, ty) :: rest) sel = some (c ++ " = " ++ ("'" ++ pyEscape s ++ "'")))
    ∧ (∀ c ty rest sel rep b, lookupVal sel c = some (Val.vother rep b) →
      buildWhereClause ((c, ty) :: rest) sel = some (c ++ " = " ++ rep))
    ∧ (∀ c1 t1 c2 t2 rest sel v1 v2,
      lookupVal sel c1 = some v1 → lookupVal sel c2 = some v2 →
      buildWhereClause ((c1, t1) :: (c2, t2) :: rest) sel = some (c1 ++ " = " ++ renderWhereVal v1)
      ∧ buildWhereClause ((c2, t2) :: (c1, t1) :: rest) sel = some (c2 ++ " = " ++ renderWhereVal v2))
    ∧ buildWhereClause [("id", "string"), ("name", "string")]
        [("id", Val.vstr "a'b"), ("name", Val.vstr "x")] = some "id = 'a''b'"
    ∧ buildWhereClause [("name", "string"), ("id", "string")]
        [("id", Val.vstr "a'b"), ("name", Val.vstr "x")] = some "name = 'x'" := by
  refine ⟨?_, ?_, ?_, by decide, by decide⟩
  · intro c ty rest sel s h
    simp [buildWhereClause, h, renderWhereVal]
  · intro c ty rest sel rep b h
    simp [buildWhereClause, h, renderWhereVal, pyStr]
  · intro c1 t1 c2 t2 rest sel v1 v2 h1 h2
    exact ⟨by simp [buildWhereClause, h1], by simp [buildWhereClause, h2]⟩

/-- C10: the masterfile `insert_record` and `update_record` raise (and
produce no SQL) exactly when the record has a `ticket` key whose value
fails the trimmed `^MDAR-\d+$` check (a non-string ticket raises too);
otherwise `insert_record` builds its INSERT from the normalized record
(sentinels replaced by the empty string, ticket stripped in place) and
`update_record` from the record with the ticket stripped in place. -/
theorem masterfile_ticket_guard_iff :
    (∀ table r, (insert_record_m table r).toOption =
      if (lookupVal r "ticket").any ticketValFails then none
      else some (insert_record_sql table (pyNormalizeRecord r)))
    ∧ (∀ table r w, (update_record_m table r w).toOption =
      if (lookupVal r "ticket").any ticketValFails then none
      else some (update_record_sql table (stripTicketKey r) w)) := by
  constructor
  · intro table r
    simp only [insert_record_m, pyNormalizeRecord, stripTicketKey, lookupVal_map]
    cases h : lookupVal r "ticket" with
    | none => simp [Except.toOption]
    | some v =>
      cases v with
      | vnone => simp [desentVal, ticketValFails, Except.toOption]
      | vother rep b => simp [desentVal, ticketValFails, Except.toOption]
      | vstr s =>
        by_cases hs : s = "-- Select --"
        · subst hs
          have hd : desentVal (Val.vstr "-- Select --") = Val.vstr "" := by decide
          have hv : validate_ticket_format (pyStrip "") = false := by decide
          have htf : ticketValFails (Val.vstr "-- Select --") = true := by decide
          simp [hd, hv, htf, Except.toOption]
        · have hd : desentVal (Val.vstr s) = Val.vstr s := by simp [desentVal, hs]
          by_cases hv : validate_ticket_format (pyStrip s) = true
          · simp [hd, ticketValFails, hv, Except.toOption]
          · simp [hd, ticketValFails, hv, Except.toOption]
  · intro table r w
    simp only [update_record_m, stripTicketKey]
    cases h : lookupVal r "ticket" with
    | none => simp [Except.toOption]
    | some v =>
      cases v with
      | vnone => simp [ticketValFails, Except.toOption]
      | vother rep b => simp [ticketValFails, Except.toOption]
      | vstr s =>
        by_cases hv : validate_ticket_format (pyStrip s) = true
        · simp [ticketValFails, hv, Except.toOption]
        · simp [ticketValFails, hv, Except.toOption]

/-- C7: every mutating handler (insert, update, delete) that ends in any
non-success outcome leaves the session state (snapshot and schema)
exactly as it was, and on success invalidates only the snapshot
(`table_data := none`), keeping the schema. -/
theorem failed_mutation_preserves_session :
    (∀ state table form exec,
      (addRecordStep state table form exec).1 =
        match (addRecordStep state table form exec).2 with
        | Outcome.success _ => { state with table_data := none }
        | _ => state)
    ∧ (∀ state table form sel exec,
      (updateRecordStep state table form sel exec).1 =
        match (updateRecordStep state table form sel exec).2 with
        | Outcome.success _ => { state with table_data := none }
        | _ => state)
    ∧ (∀ state table sel exec,
      (deleteRecordStep state table sel exec).1 =
        match (deleteRecordStep state table sel exec).2 with
        | Outcome.success _ => { state with table_data := none }
        | _ => state) := by
  refine ⟨?_, ?_, ?_⟩
  · intro state table form exec
    cases hg : pyGetD form "ticket" (Val.vstr "") with
    | vnone => simp [addRecordStep, hg]
    | vother rep b => simp [addRecordStep, hg]
    | vstr s =>
      simp only [addRecordStep, hg]
      by_cases hc : check_ticket_exists (pyStrip s) state.table_data = true
      · simp [hc]
      · cases hvr : validate_new_record form with
        | mk b2 msg =>
          cases b2
          · simp [hc, hvr]
          · cases hins : insert_record_m table form with
            | error e => simp [hc, hvr, hins]
            | ok sql =>
              cases hex : exec sql with
              | error e => simp [hc, hvr, hins, hex]
              | ok u => simp [hc, hvr, hins, hex]
  · intro state table form sel exec
    cases hsch : state.table_schema with
    | none => simp [updateRecordStep, hsch]
    | some schema =>
      simp only [updateRecordStep, hsch]
      cases hw : buildWhereClause schema sel with
      | none => simp [hw]
      | some w =>
        cases hup : update_record_m table form w with
        | error e => simp [hw, hup]
        | ok sql =>
          cases hex : exec sql with
          | error e => simp [hw, hup, hex]
          | ok u => simp [hw, hup, hex]
  · intro state table sel exec
    cases hsch : state.table_schema with
    | none => simp [deleteRecordStep, hsch]
    | some schema =>
      simp only [deleteRecordStep, hsch]
      cases hw : buildWhereClause schema sel with
      | none => simp [hw]
      | some w =>
        cases hex : exec (delete_record_sql table w) with
        | error e => simp [hw, hex]
        | ok u => simp [hw, hex]

/-- C4: before insert, the trimmed candidate ticket is compared
case-insensitively against every existing ticket value in the snapshot,
and a match rejects the insert with the distinct duplicate error and no
SQL; in particular inserting `mdar-100` when the snapshot holds
`MDAR-100` is rejected. -/
theorem duplicate_ticket_blocks_insert :
    (∀ state table form exec snap row v cand,
      state.table_data = some snap →
      "ticket" ∈ snap.cols →
      row ∈ snap.rows →
      pyGetD row "ticket" Val.vnone = v →
      pyGetD form "ticket" (Val.vstr "") = Val.vstr cand →
      pyUpper (pyStrip (pyStr v)) = pyUpper (pyStrip cand) →
      addRecordStep state table form exec = (state, Outcome.duplicate))
    ∧ addRecordStep stateEx "t" [("ticket", Val.vstr "mdar-100")] (fun _ => Except.ok ())
      = (stateEx, Outcome.duplicate) := by
  constructor
  · intro state table form exec snap row v cand h1 h2 h3 h4 h5 h6
    have hchk : check_ticket_exists (pyStrip cand) state.table_data = true := by
      rw [h1]
      simp only [check_ticket_exists]
      have hrows : ¬ snap.rows.length = 0 := by
        intro he
        rw [List.length_eq_zero] at he
        rw [he] at h3
        exact absurd h3 (List.not_mem_nil row)
      rw [if_neg hrows]
      have hcols : elemStr "ticket" snap.cols = true := (elemStr_iff _ _).mpr h2
      rw [hcols]
      simp only [Bool.not_true, Bool.false_eq_true, if_false]
      rw [pyStrip_idem]
      apply (elemStr_iff _ _).mpr
      rw [← h6, ← h4]
      exact List.mem_map_of_mem _ h3
    simp only [addRecordStep, h5]
    simp [hchk]
  · decide

/-- C9: `check_ticket_exists` returns `false` whenever the snapshot is
`None`, has zero rows, or lacks a `ticket` column, so in those states the
duplicate check never blocks an insert. -/
theorem check_ticket_exists_degenerate_false :
    (∀ t, check_ticket_exists t none = false)
    ∧ (∀ t snap, snap.rows = [] → check_ticket_exists t (some snap) = false)
    ∧ (∀ t snap, "ticket" ∉ snap.cols → check_ticket_exists t (some snap) = false) := by
  refine ⟨fun t => rfl, ?_, ?_⟩
  · intro t snap h
    simp [check_ticket_exists, h]
  · intro t snap h
    have he : elemStr "ticket" snap.cols = false := by
      rcases hb : elemStr "ticket" snap.cols with _ | _
      · rfl
      · exact absurd ((elemStr_iff _ _).mp hb) h
    simp [check_ticket_exists, he]

end TableEditor
